import Mathlib

/-!
Verification of the LumePay webhook delivery and retry subsystem.

The definitions below are a shallow embedding of `WebhookService`
(`src/services/webhookService.ts`) and of the webhook subscription routes
(`src/routes/webhookRoute.ts`).  The Prisma database is modelled as an
explicit state (`DB`); every `await prisma....` call becomes a pure query
or update on that state.  The single outbound HTTP attempt made by
`axios.post` is modelled by an `HttpOutcome` oracle passed to the function:
axios with its default `validateStatus` resolves exactly for statuses in
[200, 300) and rejects otherwise (carrying the response when one exists),
which is how the try/catch split in `sendWebhook` is reproduced here.

Timestamps are naturals (milliseconds since the epoch); all `new Date()` /
`Date.now()` occurrences inside one operation are modelled by one `now`
parameter.  Prisma's `lte` filter does not match NULL columns, so the
`nextRetryAt: { lte: new Date() }` clause of the retry sweep is modelled as
`false` on `none`.
-/

namespace WebhookService

/-- Row of the `WebhookSubscription` table, restricted to the columns the
webhook service reads or writes. -/
structure WebhookSubscription where
  id : String
  merchant : String
  url : String
  events : List String
  secret : String
  isActive : Bool
  failureCount : Nat
  lastTriggered : Option Nat
  deriving Repr, DecidableEq

/-- Row of the `WebhookDelivery` table.  `eventData` is carried opaquely
(as its serialized form); the service never inspects it. -/
structure WebhookDelivery where
  id : Nat
  webhookSubscriptionId : String
  eventType : String
  eventData : String
  status : String
  responseCode : Option Nat
  responseBody : Option String
  attempts : Nat
  nextRetryAt : Option Nat
  deliveredAt : Option Nat
  deriving Repr, DecidableEq

/-- The mutable database state: both tables plus a fresh-id counter for
created delivery rows. -/
structure DB where
  subscriptions : List WebhookSubscription
  deliveries : List WebhookDelivery
  nextId : Nat
  deriving Repr, DecidableEq

/-- Settled outcome of the single `axios.post` call: either an HTTP
response (with the final status after axios followed redirects) or a
network-level error (timeout, connection or DNS failure). -/
inductive HttpOutcome where
  | response (status : Nat) (body : String)
  | netError (message : String)
  deriving Repr, DecidableEq

/-- The `WebhookDeliveryResult` interface returned by `sendWebhook`. -/
structure WebhookDeliveryResult where
  success : Bool
  statusCode : Option Nat
  responseBody : Option String
  error : Option String
  deriving Repr, DecidableEq

/-- Model of `prisma.webhookSubscription.findUnique` keyed by id. -/
def findSub (db : DB) (i : String) : Option WebhookSubscription :=
  db.subscriptions.find? (fun s => s.id == i)

/-- Model of `prisma.webhookSubscription.update` keyed by id:
replace the row with the matching id. -/
def updateSub (db : DB) (i : String)
    (f : WebhookSubscription → WebhookSubscription) : DB :=
  { db with subscriptions := db.subscriptions.map (fun s => if s.id = i then f s else s) }

/-- Lookup of a delivery row by primary key. -/
def getDelivery (db : DB) (i : Nat) : Option WebhookDelivery :=
  db.deliveries.find? (fun r => r.id == i)

/-- Model of `prisma.webhookDelivery.update` keyed by id. -/
def updateDelivery (db : DB) (i : Nat)
    (f : WebhookDelivery → WebhookDelivery) : DB :=
  { db with deliveries := db.deliveries.map (fun r => if r.id = i then f r else r) }

/-- JavaScript truthiness of the stored response body:
`responseBody ? JSON.stringify(responseBody) : null` maps an absent or
empty body to NULL. -/
def truthy : Option String → Option String
  | some s => if s = "" then none else some s
  | none => none

/-- Model of `axiosError.response?.status`. -/
def statusOf : HttpOutcome → Option Nat
  | .response s _ => some s
  | .netError _ => none

/-- Model of `axiosError.response?.data` (and `response.data` on success). -/
def bodyOf : HttpOutcome → Option String
  | .response _ b => some b
  | .netError _ => none

/-- Model of `axiosError.message`: axios formats HTTP-status rejections as
"Request failed with status code N"; network errors carry their own
message. -/
def axiosErrorMessage : HttpOutcome → String
  | .response s _ => "Request failed with status code " ++ toString s
  | .netError m => m

/-- Whether the `axios.post` promise resolves.  The service passes no
`validateStatus`, so the axios default applies: resolve exactly for
statuses in [200, 300). -/
def axiosResolves : HttpOutcome → Bool
  | .response s _ => decide (200 ≤ s) && decide (s < 300)
  | .netError _ => false

/-- Model of `WebhookService.recordDelivery`: `prisma.webhookDelivery.create` with
`attempts: 1` and with neither `nextRetryAt` nor `deliveredAt` supplied
(they are created NULL). -/
def recordDelivery (db : DB) (webhookId eventType eventData : String)
    (status : String) (responseCode : Option Nat) (responseBody : Option String) : DB :=
  { db with
    deliveries := db.deliveries ++
      [{ id := db.nextId
         webhookSubscriptionId := webhookId
         eventType := eventType
         eventData := eventData
         status := status
         responseCode := responseCode
         responseBody := truthy responseBody
         attempts := 1
         nextRetryAt := none
         deliveredAt := none }]
    nextId := db.nextId + 1 }

/-- Model of `WebhookService.sendWebhook`: look up the subscription, re-validate it,
perform the single HTTP attempt, record the delivery and update the
subscription's health counters. -/
def sendWebhook (db : DB) (now : Nat) (outcome : HttpOutcome)
    (webhookId eventType eventData : String) : DB × WebhookDeliveryResult :=
  match findSub db webhookId with
  | none => (db, ⟨false, none, none, some "Webhook not found or inactive"⟩)
  | some webhook =>
    if webhook.isActive = false then
      (db, ⟨false, none, none, some "Webhook not found or inactive"⟩)
    else if webhook.events.contains eventType = false then
      (db, ⟨false, none, none, some "Event type not subscribed"⟩)
    else if axiosResolves outcome then
      -- axios resolved (2xx): record success, reset failure count
      let db1 := recordDelivery db webhookId eventType eventData "delivered"
        (statusOf outcome) (bodyOf outcome)
      let db2 := updateSub db1 webhookId
        (fun s => { s with lastTriggered := some now, failureCount := 0 })
      (db2, ⟨true, statusOf outcome, bodyOf outcome, none⟩)
    else
      -- catch branch: record failure, increment failure count
      let db1 := recordDelivery db webhookId eventType eventData "failed"
        (statusOf outcome) (bodyOf outcome)
      let db2 := updateSub db1 webhookId
        (fun s => { s with failureCount := s.failureCount + 1 })
      (db2, ⟨false, statusOf outcome, truthy (bodyOf outcome),
             some (axiosErrorMessage outcome)⟩)

/-- The `where` clause of the retry sweep's `findMany`:
`status: 'failed'`, `attempts: { lt: 3 }`, `nextRetryAt: { lte: now }`
(Prisma's `lte` never matches a NULL column). -/
def isDue (now : Nat) (d : WebhookDelivery) : Bool :=
  d.status == "failed" && decide (d.attempts < 3) &&
    (match d.nextRetryAt with
     | some t => decide (t ≤ now)
     | none => false)

/-- The due list selected at the start of `retryFailedWebhooks`. -/
def dueForRetry (db : DB) (now : Nat) : List WebhookDelivery :=
  db.deliveries.filter (isDue now)

/-- One iteration of the `retryFailedWebhooks` loop, acting on the snapshot
delivery `d` taken by the sweep query. -/
def retryStep (db : DB) (now : Nat) (outcome : HttpOutcome)
    (d : WebhookDelivery) : DB :=
  match findSub db d.webhookSubscriptionId with
  | none => db
  | some sub =>
    if sub.isActive = false then
      -- inactive subscription: mark terminal failed without dispatching
      updateDelivery db d.id (fun r => { r with status := "failed" })
    else
      let res := sendWebhook db now outcome d.webhookSubscriptionId d.eventType d.eventData
      if res.2.success then
        updateDelivery res.1 d.id
          (fun r => { r with status := "delivered", deliveredAt := some now })
      else
        let attempts := d.attempts + 1
        let nextRetryAt := now + 2 ^ attempts * 60000
        updateDelivery res.1 d.id
          (fun r =>
            { r with
              attempts := attempts
              nextRetryAt := if attempts < 3 then some nextRetryAt else none
              status := if 3 ≤ attempts then "failed" else "pending" })

/-- Model of `WebhookService.retryFailedWebhooks`: select the due list once, then
process it in order; `outcomes` supplies the HTTP outcome of each retried
delivery, keyed by its row id. -/
def retryFailedWebhooks (db : DB) (now : Nat) (outcomes : Nat → HttpOutcome) : DB :=
  (dueForRetry db now).foldl (fun acc d => retryStep acc now (outcomes d.id) d) db

/-- Outcome of one promise under `Promise.allSettled`. -/
inductive Settled (α : Type) where
  | fulfilled (value : α)
  | rejected (reason : String)
  deriving Repr

/-- Model of `Promise.allSettled`: every promise's rejection is absorbed into a
`rejected` entry; the combined promise always fulfills. -/
def promiseAllSettled {α : Type} (ps : List (Except String α)) : List (Settled α) :=
  ps.map (fun p =>
    match p with
    | .ok v => Settled.fulfilled v
    | .error e => Settled.rejected e)

/-- A JavaScript `try ... catch (e) { handler(e) }` around a body of unit
type: the handler (here, a logging call) swallows the exception. -/
def tryCatchUnit (body : Except String Unit) (handler : String → Unit) :
    Except String Unit :=
  match body with
  | .ok v => .ok v
  | .error e => .ok (handler e)

/-- Model of `WebhookService.sendWebhookToMerchant`: the subscription query may
reject (`findRes`), and each per-subscription delivery promise may reject
(`deliver`); the former is absorbed by the outer try/catch, the latter by
`Promise.allSettled`. -/
def sendWebhookToMerchant
    (findRes : Except String (List WebhookSubscription))
    (deliver : WebhookSubscription → Except String WebhookDeliveryResult) :
    Except String Unit :=
  tryCatchUnit
    (do
      let webhooks ← findRes
      let _settled := promiseAllSettled (webhooks.map deliver)
      pure ())
    (fun _e => ())

end WebhookService

namespace Crypto

/-!
Executable model of `crypto.createHmac('sha256', secret).update(payload).digest('hex')`
from node:crypto, used by `WebhookService.generateSignature`.  Bytes are
naturals below 256 and 32-bit words are naturals reduced modulo 2^32.
-/

/-- Reduce to a 32-bit word. -/
def w32 (n : Nat) : Nat := n % 4294967296

/-- 32-bit modular addition. -/
def addw (a b : Nat) : Nat := (a + b) % 4294967296

/-- Right rotation of a 32-bit word by `n` places. -/
def rotr (n x : Nat) : Nat := w32 ((x >>> n) ||| (x <<< (32 - n)))

/-- SHA-256 small sigma 0. -/
def ssig0 (x : Nat) : Nat := rotr 7 x ^^^ rotr 18 x ^^^ (x >>> 3)

/-- SHA-256 small sigma 1. -/
def ssig1 (x : Nat) : Nat := rotr 17 x ^^^ rotr 19 x ^^^ (x >>> 10)

/-- SHA-256 big sigma 0. -/
def bsig0 (x : Nat) : Nat := rotr 2 x ^^^ rotr 13 x ^^^ rotr 22 x

/-- SHA-256 big sigma 1. -/
def bsig1 (x : Nat) : Nat := rotr 6 x ^^^ rotr 11 x ^^^ rotr 25 x

/-- SHA-256 choice function. -/
def ch (x y z : Nat) : Nat := (x &&& y) ^^^ ((x ^^^ 4294967295) &&& z)

/-- SHA-256 majority function. -/
def maj (x y z : Nat) : Nat := (x &&& y) ^^^ (x &&& z) ^^^ (y &&& z)

/-- The 64 SHA-256 round constants, eight per row. -/
def Krows : List (List Nat) :=
  [[0x428a2f98, 0x71374491, 0xb5c0fbcf, 0xe9b5dba5, 0x3956c25b, 0x59f111f1, 0x923f82a4, 0xab1c5ed5],
   [0xd807aa98, 0x12835b01, 0x243185be, 0x550c7dc3, 0x72be5d74, 0x80deb1fe, 0x9bdc06a7, 0xc19bf174],
   [0xe49b69c1, 0xefbe4786, 0x0fc19dc6, 0x240ca1cc, 0x2de92c6f, 0x4a7484aa, 0x5cb0a9dc, 0x76f988da],
   [0x983e5152, 0xa831c66d, 0xb00327c8, 0xbf597fc7, 0xc6e00bf3, 0xd5a79147, 0x06ca6351, 0x14292967],
   [0x27b70a85, 0x2e1b2138, 0x4d2c6dfc, 0x53380d13, 0x650a7354, 0x766a0abb, 0x81c2c92e, 0x92722c85],
   [0xa2bfe8a1, 0xa81a664b, 0xc24b8b70, 0xc76c51a3, 0xd192e819, 0xd6990624, 0xf40e3585, 0x106aa070],
   [0x19a4c116, 0x1e376c08, 0x2748774c, 0x34b0bcb5, 0x391c0cb3, 0x4ed8aa4a, 0x5b9cca4f, 0x682e6ff3],
   [0x748f82ee, 0x78a5636f, 0x84c87814, 0x8cc70208, 0x90befffa, 0xa4506ceb, 0xbef9a3f7, 0xc67178f2]]

/-- The 64 SHA-256 round constants. -/
def K : List Nat := Krows.flatten

/-- The SHA-256 initial hash value. -/
def initH : List Nat :=
  [0x6a09e667, 0xbb67ae85, 0x3c6ef372, 0xa54ff53a, 0x510e527f, 0x9b05688c, 0x1f83d9ab, 0x5be0cd19]

/-- Big-endian byte decomposition of `n` into `k` bytes. -/
def beBytes (k n : Nat) : List Nat :=
  (List.range k).map (fun i => (n >>> (8 * (k - 1 - i))) % 256)

/-- Group a byte list into big-endian 32-bit words. -/
def bytesToWords : List Nat → List Nat
  | a :: b :: c :: d :: rest => (((a * 256 + b) * 256 + c) * 256 + d) :: bytesToWords rest
  | _ => []

/-- One extension step of the message schedule. -/
def scheduleStep (ws : List Nat) : List Nat :=
  let n := ws.length
  ws ++ [addw (addw (ssig1 (ws.getD (n - 2) 0)) (ws.getD (n - 7) 0))
             (addw (ssig0 (ws.getD (n - 15) 0)) (ws.getD (n - 16) 0))]

/-- The 64-word message schedule of one 16-word block. -/
def schedule (block : List Nat) : List Nat :=
  (List.range 48).foldl (fun ws _ => scheduleStep ws) block

/-- One SHA-256 round on the working state `[a,b,c,d,e,f,g,h]`. -/
def roundStep (st : List Nat) (kw : Nat × Nat) : List Nat :=
  match st with
  | [a, b, c, d, e, f, g, h] =>
    let t1 := addw h (addw (bsig1 e) (addw (ch e f g) (addw kw.1 kw.2)))
    let t2 := addw (bsig0 a) (maj a b c)
    [addw t1 t2, a, b, c, addw d t1, e, f, g]
  | st => st

/-- SHA-256 compression of one 64-byte block into the hash state. -/
def sha256Compress (h : List Nat) (block : List Nat) : List Nat :=
  let ws := schedule (bytesToWords block)
  let st := (K.zip ws).foldl roundStep h
  (h.zip st).map (fun p => addw p.1 p.2)

/-- SHA-256 padding: append 0x80, zero bytes to 56 mod 64, then the bit
length as 8 big-endian bytes. -/
def sha256Pad (msg : List Nat) : List Nat :=
  msg ++ [128] ++ List.replicate ((119 - msg.length % 64) % 64) 0 ++ beBytes 8 (msg.length * 8)

/-- Process a padded message 64 bytes at a time.  The fuel argument is the
length of the padded message, which bounds the number of blocks, so the
recursion is structural. -/
def sha256Loop : Nat → List Nat → List Nat → List Nat
  | 0, h, _ => h
  | _ + 1, h, [] => h
  | fuel + 1, h, msg => sha256Loop fuel (sha256Compress h (msg.take 64)) (msg.drop 64)

/-- SHA-256 of a byte list, as a 32-byte list. -/
def sha256Bytes (msg : List Nat) : List Nat :=
  let padded := sha256Pad msg
  ((sha256Loop padded.length initH padded).map (beBytes 4)).flatten

/-- HMAC key normalisation (RFC 2104): a key longer than the 64-byte
block is first hashed. -/
def hmacKey (key : List Nat) : List Nat :=
  if 64 < key.length then sha256Bytes key else key

/-- The normalised key zero-padded to the 64-byte block size. -/
def hmacPaddedKey (key : List Nat) : List Nat :=
  hmacKey key ++ List.replicate (64 - (hmacKey key).length) 0

/-- HMAC-SHA256 (RFC 2104): H((K xor opad) || H((K xor ipad) || msg)). -/
def hmacSha256 (key msg : List Nat) : List Nat :=
  sha256Bytes ((hmacPaddedKey key).map (fun b => b ^^^ 92) ++
    sha256Bytes ((hmacPaddedKey key).map (fun b => b ^^^ 54) ++ msg))

/-- Lowercase hexadecimal digit for a value below 16. -/
def hexDigitChar (n : Nat) : Char :=
  if n < 10 then Char.ofNat (48 + n) else Char.ofNat (87 + n)

/-- The sixteen lowercase hexadecimal digits. -/
def lowercaseHexDigits : List Char := "0123456789abcdef".data

/-- Lowercase hex character list of a byte list (`.digest('hex')`). -/
def hexChars (bs : List Nat) : List Char :=
  bs.flatMap (fun b => [hexDigitChar (b / 16), hexDigitChar (b % 16)])

/-- Lowercase hex rendering of a byte list. -/
def toHex (bs : List Nat) : String := String.mk (hexChars bs)

/-- UTF-8 encoding of one character. -/
def utf8EncodeChar (c : Char) : List Nat :=
  let n := c.toNat
  if n < 128 then [n]
  else if n < 2048 then [192 ||| (n >>> 6), 128 ||| (n &&& 63)]
  else if n < 65536 then
    [224 ||| (n >>> 12), 128 ||| ((n >>> 6) &&& 63), 128 ||| (n &&& 63)]
  else
    [240 ||| (n >>> 18), 128 ||| ((n >>> 12) &&& 63),
     128 ||| ((n >>> 6) &&& 63), 128 ||| (n &&& 63)]

/-- UTF-8 byte list of a string (node encodes string inputs of
`createHmac`/`update` as UTF-8 by default). -/
def utf8Bytes (s : String) : List Nat := s.data.flatMap utf8EncodeChar

end Crypto

/-- JSON values, as produced by the JavaScript layer. -/
inductive Json where
  | null
  | bool (b : Bool)
  | num (n : Int)
  | str (s : String)
  | arr (elems : List Json)
  | obj (fields : List (String × Json))

namespace Json

/-- The escape `JSON.stringify` applies to one character inside a string
literal: quote, backslash and the named control characters get two-character
escapes, other control characters a \u escape, everything else is copied. -/
def escapeChar (c : Char) : List Char :=
  if c = '"' then ['\\', '"']
  else if c = '\\' then ['\\', '\\']
  else if c = Char.ofNat 8 then ['\\', 'b']
  else if c = Char.ofNat 9 then ['\\', 't']
  else if c = Char.ofNat 10 then ['\\', 'n']
  else if c = Char.ofNat 12 then ['\\', 'f']
  else if c = Char.ofNat 13 then ['\\', 'r']
  else if c.toNat < 32 then
    ['\\', 'u', '0', '0', Crypto.hexDigitChar (c.toNat / 16), Crypto.hexDigitChar (c.toNat % 16)]
  else [c]

/-- A JSON string literal with its surrounding quotes. -/
def quote (s : String) : String :=
  String.mk ('"' :: s.data.flatMap escapeChar ++ ['"'])

mutual

/-- Model of `JSON.stringify` without a replacer or spacing: object fields keep
insertion order, no whitespace is produced. -/
def stringify : Json → String
  | .null => "null"
  | .bool true => "true"
  | .bool false => "false"
  | .num n => toString n
  | .str s => quote s
  | .arr es => "[" ++ stringifyElems es ++ "]"
  | .obj fs => "\x7b" ++ stringifyFields fs ++ "\x7d"

/-- Comma-separated serialization of array elements. -/
def stringifyElems : List Json → String
  | [] => ""
  | [e] => stringify e
  | e :: es => stringify e ++ "," ++ stringifyElems es

/-- Comma-separated serialization of object fields. -/
def stringifyFields : List (String × Json) → String
  | [] => ""
  | [(k, v)] => quote k ++ ":" ++ stringify v
  | (k, v) :: fs => quote k ++ ":" ++ stringify v ++ "," ++ stringifyFields fs

end

end Json

namespace WebhookService

/-- The `WebhookEvent` interface: the payload object built by `sendWebhook`
with field insertion order id, type, data, created. -/
structure WebhookEvent where
  id : String
  type : String
  data : Json
  created : Nat

/-- The JavaScript object literal `{ id, type, data, created }` as a JSON
value, in insertion order. -/
def eventJson (e : WebhookEvent) : Json :=
  .obj [("id", .str e.id), ("type", .str e.type), ("data", e.data),
        ("created", .num (Int.ofNat e.created))]

/-- Model of `WebhookService.generateSignature`:
`crypto.createHmac('sha256', secret).update(JSON.stringify(event)).digest('hex')`. -/
def generateSignature (event : WebhookEvent) (secret : String) : String :=
  Crypto.toHex (Crypto.hmacSha256 (Crypto.utf8Bytes secret)
    (Crypto.utf8Bytes (Json.stringify (eventJson event))))

end WebhookService

namespace WebhookRoute

/-!
Model of the read responses of `src/routes/webhookRoute.ts`.  The Prisma
schema file itself is not part of the repository; the column set of a
`WebhookSubscription` row is the one the routes and the service read and
write (id, url, events, secret, merchant, apiKeyId, isActive, createdAt,
lastTriggered, failureCount).
-/

/-- A full `WebhookSubscription` row as returned by Prisma without a
`select` clause. -/
structure SubscriptionRow where
  id : String
  url : String
  events : List String
  secret : String
  merchant : String
  apiKeyId : String
  isActive : Bool
  createdAt : Nat
  lastTriggered : Option Nat
  failureCount : Nat

/-- Optional timestamp as JSON. -/
def optNum : Option Nat → Json
  | some n => .num (Int.ofNat n)
  | none => .null

/-- All fields of the row, as the JSON object Prisma's `create` returns. -/
def rowFields (w : SubscriptionRow) : List (String × Json) :=
  [("id", .str w.id), ("url", .str w.url), ("events", .arr (w.events.map .str)),
   ("secret", .str w.secret), ("merchant", .str w.merchant),
   ("apiKeyId", .str w.apiKeyId), ("isActive", .bool w.isActive),
   ("createdAt", .num (Int.ofNat w.createdAt)),
   ("lastTriggered", optNum w.lastTriggered),
   ("failureCount", .num (Int.ofNat w.failureCount))]

/-- The create handler's `const \x7b secret: _, ...webhookData \x7d = webhook`:
the rest object drops exactly the `secret` property. -/
def createResponseData (w : SubscriptionRow) : List (String × Json) :=
  (rowFields w).filter (fun p => p.1 ≠ "secret")

/-- The `select` object shared by the list, get-by-id and update handlers:
id, url, events, isActive, createdAt, lastTriggered, failureCount —
`secret` is deliberately not selected. -/
def selectedFields (w : SubscriptionRow) : List (String × Json) :=
  [("id", .str w.id), ("url", .str w.url), ("events", .arr (w.events.map .str)),
   ("isActive", .bool w.isActive), ("createdAt", .num (Int.ofNat w.createdAt)),
   ("lastTriggered", optNum w.lastTriggered),
   ("failureCount", .num (Int.ofNat w.failureCount))]

/-- Response body of `POST /webhooks` (201). -/
def createResponse (w : SubscriptionRow) : Json :=
  .obj [("success", .bool true), ("data", .obj (createResponseData w))]

/-- Response body of `GET /webhooks`. -/
def listResponse (ws : List SubscriptionRow) : Json :=
  .obj [("success", .bool true), ("data", .arr (ws.map (fun w => .obj (selectedFields w))))]

/-- Response body of `GET /webhooks/:id` on success. -/
def getResponse (w : SubscriptionRow) : Json :=
  .obj [("success", .bool true), ("data", .obj (selectedFields w))]

/-- Response body of `PUT /webhooks/:id` on success. -/
def updateResponse (w : SubscriptionRow) : Json :=
  .obj [("success", .bool true), ("data", .obj (selectedFields w))]

/-- Response body of `POST /webhooks/:id/regenerate-secret` on success. -/
def regenerateResponse : Json :=
  .obj [("success", .bool true), ("message", .str "Webhook secret regenerated")]

/-- Top-level key list of a JSON object. -/
def objKeys : Json → List String
  | .obj fs => fs.map Prod.fst
  | _ => []

end WebhookRoute

namespace WebhookService

/-! Concrete states used to evaluate the service on explicit inputs. -/

/-- An active subscription to `payment_intent.confirmed`, previously
triggered at time 7 and currently healthy. -/
def subA : WebhookSubscription :=
  { id := "sub1", merchant := "m1", url := "https://merchant.example/hook",
    events := ["payment_intent.confirmed"], secret := "whsec_0123456789abcdef",
    isActive := true, failureCount := 0, lastTriggered := some 7 }

/-- The same subscription, deactivated. -/
def subI : WebhookSubscription := { subA with isActive := false }

/-- Database holding only `subA`, with no deliveries yet. -/
def dbA : DB := { subscriptions := [subA], deliveries := [], nextId := 0 }

/-- A failed delivery record for `subA` with one attempt, due for retry
(its next-retry time has passed). -/
def dlvA : WebhookDelivery :=
  { id := 0, webhookSubscriptionId := "sub1",
    eventType := "payment_intent.confirmed", eventData := "payload",
    status := "failed", responseCode := some 500, responseBody := none,
    attempts := 1, nextRetryAt := some 0, deliveredAt := none }

/-- The same record after a second failed attempt. -/
def dlvB : WebhookDelivery := { dlvA with attempts := 2 }

/-- Database with `subA` and the due record `dlvA`. -/
def dbB : DB := { subscriptions := [subA], deliveries := [dlvA], nextId := 1 }

/-- Database with `subA` and the twice-failed due record `dlvB`. -/
def dbC : DB := { subscriptions := [subA], deliveries := [dlvB], nextId := 1 }

/-- Database where the owning subscription has been deactivated while
`dlvA` is still due. -/
def dbI : DB := { subscriptions := [subI], deliveries := [dlvA], nextId := 1 }

/-- Database with no subscriptions at all. -/
def dbEmpty : DB := { subscriptions := [], deliveries := [], nextId := 0 }

/-! Helper lemmas about the state-update primitives. -/

/-- A search that succeeds in the left list is unaffected by appending. -/
theorem find?_append_left {α : Type} {l l' : List α} {p : α → Bool} {d : α}
    (h : l.find? p = some d) : (l ++ l').find? p = some d := by
  rw [List.find?_append, h]
  rfl

/-- Unfolding of a key search over a cons cell. -/
theorem find?_cons_eq {α : Type} (p : α → Bool) (a : α) (l : List α) :
    (a :: l).find? p = if p a then some a else l.find? p := by
  by_cases h : p a <;> simp [h]

/-- Updating the row with a given key rewrites exactly the row a key
search finds, provided the update preserves the key. -/
theorem find?_key_map_update {α κ : Type} [DecidableEq κ] [BEq κ] [LawfulBEq κ]
    (key : α → κ) (f : α → α) (i : κ) (hf : ∀ r, key (f r) = key r)
    {l : List α} {d : α} (h : l.find? (fun r => key r == i) = some d) :
    (l.map (fun r => if key r = i then f r else r)).find? (fun r => key r == i)
      = some (f d) := by
  induction l with
  | nil => simp at h
  | cons a t ih =>
    rw [find?_cons_eq (fun r => key r == i) a t] at h
    simp only [List.map_cons]
    rw [find?_cons_eq (fun r => key r == i) (if key a = i then f a else a)
      (t.map (fun r => if key r = i then f r else r))]
    by_cases hai : key a = i
    · have hb : (key a == i) = true := beq_iff_eq.mpr hai
      rw [hb, if_pos rfl] at h
      injection h with h
      subst h
      rw [if_pos hai]
      have hfb : (key (f a) == i) = true := beq_iff_eq.mpr (by rw [hf, hai])
      rw [hfb, if_pos rfl]
    · have hb : (key a == i) = false := beq_eq_false_iff_ne.mpr hai
      rw [hb] at h
      simp only [Bool.false_eq_true, if_false] at h
      rw [if_neg hai, hb]
      simp only [Bool.false_eq_true, if_false]
      exact ih h

/-- Updating a delivery row does not change the id column of any row. -/
theorem updateDelivery_map_id (db : DB) (i : Nat)
    (f : WebhookDelivery → WebhookDelivery) (hf : ∀ r, (f r).id = r.id) :
    (updateDelivery db i f).deliveries.map (fun r => r.id)
      = db.deliveries.map (fun r => r.id) := by
  show (db.deliveries.map _).map _ = _
  induction db.deliveries with
  | nil => rfl
  | cons a t ih =>
    simp only [List.map_cons, ih, List.cons.injEq, and_true]
    by_cases h : a.id = i
    · simp [h, hf]
    · simp [h]

/-- Reading back the updated delivery row. -/
theorem getDelivery_update {db : DB} {i : Nat}
    (f : WebhookDelivery → WebhookDelivery) (hf : ∀ r, (f r).id = r.id)
    {d : WebhookDelivery} (h : getDelivery db i = some d) :
    getDelivery (updateDelivery db i f) i = some (f d) := by
  unfold getDelivery at h ⊢
  exact find?_key_map_update (fun r => r.id) f i hf h

/-- Reading back the updated subscription row. -/
theorem findSub_update {db : DB} {i : String}
    (f : WebhookSubscription → WebhookSubscription) (hf : ∀ s, (f s).id = s.id)
    {w : WebhookSubscription} (h : findSub db i = some w) :
    findSub (updateSub db i f) i = some (f w) := by
  unfold findSub at h ⊢
  exact find?_key_map_update (fun s => s.id) f i hf h

/-- The dispatcher's result flag equals the axios resolution status once
the subscription guards pass. -/
theorem sendWebhook_success_eq {db : DB} {now : Nat} {o : HttpOutcome}
    {wid et data : String} {w : WebhookSubscription}
    (hw : findSub db wid = some w) (ha : w.isActive = true)
    (he : w.events.contains et = true) :
    (sendWebhook db now o wid et data).2.success = axiosResolves o := by
  unfold sendWebhook
  rw [hw]
  simp only [ha, he]
  by_cases hr : axiosResolves o = true <;> simp [hr]

/-- Once the guards pass, the dispatcher appends exactly one delivery row
(with the fresh id) whatever the network outcome. -/
theorem sendWebhook_map_id {db : DB} {now : Nat} {o : HttpOutcome}
    {wid et data : String} {w : WebhookSubscription}
    (hw : findSub db wid = some w) (ha : w.isActive = true)
    (he : w.events.contains et = true) :
    ((sendWebhook db now o wid et data).1).deliveries.map (fun r => r.id)
      = db.deliveries.map (fun r => r.id) ++ [db.nextId] := by
  unfold sendWebhook
  rw [hw]
  simp only [ha, he]
  by_cases hr : axiosResolves o = true <;>
    simp [hr, recordDelivery, updateSub]

/-- The dispatcher never removes or re-keys an existing delivery row. -/
theorem getDelivery_sendWebhook {db : DB} {now : Nat} {o : HttpOutcome}
    {wid et data : String} {w : WebhookSubscription} {i : Nat} {d : WebhookDelivery}
    (hw : findSub db wid = some w) (ha : w.isActive = true)
    (he : w.events.contains et = true) (hd : getDelivery db i = some d) :
    getDelivery (sendWebhook db now o wid et data).1 i = some d := by
  unfold sendWebhook
  rw [hw]
  simp only [ha, he]
  by_cases hr : axiosResolves o = true <;>
    · simp only [hr]
      show List.find? _ (db.deliveries ++ _) = some d
      exact find?_append_left hd

/-- The subscription table after the dispatcher runs, resolved at the
requested id: health counters are rewritten according to the outcome. -/
theorem findSub_sendWebhook {db : DB} {now : Nat} {o : HttpOutcome}
    {wid et data : String} {w : WebhookSubscription}
    (hw : findSub db wid = some w) (ha : w.isActive = true)
    (he : w.events.contains et = true) :
    findSub (sendWebhook db now o wid et data).1 wid
      = some (if axiosResolves o then
                { w with lastTriggered := some now, failureCount := 0 }
              else
                { w with failureCount := w.failureCount + 1 }) := by
  unfold sendWebhook
  simp only [hw]
  rw [if_neg (show ¬ (w.isActive = false) by simp [ha])]
  rw [if_neg (show ¬ (w.events.contains et = false) by rw [he]; simp)]
  by_cases hr : axiosResolves o = true
  · simp only [if_pos hr]
    exact findSub_update
      (fun s => { s with lastTriggered := some now, failureCount := 0 })
      (fun s => rfl) hw
  · simp only [if_neg hr]
    exact findSub_update
      (fun s => { s with failureCount := s.failureCount + 1 })
      (fun s => rfl) hw

end WebhookService

open WebhookService

/-! Claim theorems. -/

/-- The subscription guards of `sendWebhook` fail: the subscription is
missing, inactive, or not subscribed to the event type. -/
def guardFails (db : DB) (wid et : String) : Prop :=
  match findSub db wid with
  | none => True
  | some w => w.isActive = false ∨ w.events.contains et = false

/-- C10: when the subscription is missing, inactive or not subscribed to
the event type, `sendWebhook` returns an unsuccessful result, leaves the
database (deliveries and subscriptions) untouched, and its behaviour is
independent of the network outcome, i.e. no network call is observable. -/
theorem sendWebhook_guard_frame (db : DB) (now : Nat) (o : HttpOutcome)
    (wid et data : String) (h : guardFails db wid et) :
    (sendWebhook db now o wid et data).1 = db ∧
    (sendWebhook db now o wid et data).2.success = false ∧
    sendWebhook db now o wid et data
      = sendWebhook db now (.netError "unreachable") wid et data := by
  unfold guardFails at h
  unfold sendWebhook
  cases hw : findSub db wid with
  | none => simp [hw]
  | some w =>
    rw [hw] at h
    simp only [hw]
    rcases h with h | h
    · rw [if_pos h, if_pos h]
      exact ⟨rfl, rfl, rfl⟩
    · by_cases ha : w.isActive = false
      · rw [if_pos ha, if_pos ha]
        exact ⟨rfl, rfl, rfl⟩
      · rw [if_neg ha, if_neg ha, if_pos h, if_pos h]
        exact ⟨rfl, rfl, rfl⟩

/-- C10 witness: concrete run against a database with no subscriptions. -/
theorem sendWebhook_guard_frame_witness :
    (sendWebhook dbEmpty 0 (.response 200 "ok") "nope" "payment_intent.created" "d").1 = dbEmpty ∧
    (sendWebhook dbEmpty 0 (.response 200 "ok") "nope" "payment_intent.created" "d").2.success = false ∧
    sendWebhook dbEmpty 0 (.response 200 "ok") "nope" "payment_intent.created" "d"
      = sendWebhook dbEmpty 0 (.netError "unreachable") "nope" "payment_intent.created" "d" :=
  sendWebhook_guard_frame dbEmpty 0 (.response 200 "ok") "nope" "payment_intent.created" "d"
    (True.intro)

/-- C7: the fan-out orchestrator `sendWebhookToMerchant` returns normally
for every outcome of the subscription query and of the individual delivery
promises: the outer try/catch absorbs a rejected query, and
`Promise.allSettled` absorbs rejected deliveries. -/
theorem notify_never_throws
    (findRes : Except String (List WebhookSubscription))
    (deliver : WebhookSubscription → Except String WebhookDeliveryResult) :
    sendWebhookToMerchant findRes deliver = Except.ok () := by
  cases findRes <;> rfl

/-- Database after a first delivery attempt against `subA` that fails with
HTTP 500 at time 500. -/
def dbC1 : DB :=
  (sendWebhook dbA 500 (.response 500 "oops") "sub1" "payment_intent.confirmed" "payload").1

/-- C1: the delivery record created by a failed first attempt has attempt
count 1 and status `failed`, but its next-retry timestamp is NULL (the
code never sets it), so the record never satisfies the retry sweep's due
condition at any time — the sweep's due list stays empty forever. -/
theorem firstFailure_record_never_due :
    (getDelivery dbC1 0).map (fun r => (r.attempts, r.status, r.nextRetryAt))
      = some (1, "failed", none) ∧
    ∀ m : Nat, dueForRetry dbC1 m = [] := by
  exact ⟨rfl, fun m => rfl⟩

/-- Database after the retry sweep processes the due record `dlvA` and the
retry attempt fails again with HTTP 500 at time 1000. -/
def dbC2 : DB := retryStep dbB 1000 (.response 500 "") dlvA

/-- C2: after a failed scheduled retry with incremented attempt count
2 < 3, the record is updated to status `pending` with a recomputed
next-retry time — but the sweep selects only status `failed`, so the
record (and the whole database) is never due again at any later time. -/
theorem retryFailure_pending_never_reselected :
    (getDelivery dbC2 0).map (fun r => (r.status, r.attempts, r.nextRetryAt))
      = some ("pending", 2, some 241000) ∧
    ∀ m : Nat, dueForRetry dbC2 m = [] := by
  exact ⟨rfl, fun m => rfl⟩

/-- C3 counterexample: one due record for the (event, subscription) pair
exists before the sweep; after one failed retry attempt the pair has two
delivery records — the mutated original plus a fresh one recorded by the
re-invoked dispatcher. -/
theorem retry_creates_second_record_cex :
    ((retryStep dbB 1000 (.response 500 "") dlvA).deliveries.filter
        (fun r => r.webhookSubscriptionId == "sub1"
          && r.eventType == "payment_intent.confirmed")).length = 2 := by
  rfl

/-- C3 (amended): a scheduled retry attempt whose subscription guards pass
keeps every existing delivery row (the original is mutated in place, never
deleted) and appends exactly one new delivery row with the fresh id,
whatever the network outcome. -/
theorem retry_attempt_appends_and_mutates
    (db : DB) (now : Nat) (o : HttpOutcome) (d : WebhookDelivery)
    (w : WebhookSubscription)
    (hw : findSub db d.webhookSubscriptionId = some w)
    (ha : w.isActive = true)
    (he : w.events.contains d.eventType = true) :
    (retryStep db now o d).deliveries.map (fun r => r.id)
      = db.deliveries.map (fun r => r.id) ++ [db.nextId] := by
  unfold retryStep
  simp only [hw]
  rw [if_neg (show ¬ (w.isActive = false) by simp [ha])]
  by_cases hs : (sendWebhook db now o d.webhookSubscriptionId d.eventType d.eventData).2.success
    = true
  · rw [if_pos hs, updateDelivery_map_id]
    · exact sendWebhook_map_id hw ha he
    · intro r; rfl
  · rw [if_neg hs, updateDelivery_map_id]
    · exact sendWebhook_map_id hw ha he
    · intro r; rfl

/-- C3 witness: the amended statement evaluated on the concrete due record. -/
theorem retry_attempt_appends_and_mutates_witness :
    (retryStep dbB 1000 (.response 500 "") dlvA).deliveries.map (fun r => r.id)
      = dbB.deliveries.map (fun r => r.id) ++ [dbB.nextId] :=
  retry_attempt_appends_and_mutates dbB 1000 (.response 500 "") dlvA subA rfl rfl rfl

/-- C5 counterexample: a response with status 304 — below 400 — is
classified as a failure, because axios's default `validateStatus` rejects
everything outside [200, 300). -/
theorem status304_classified_failure_cex :
    (sendWebhook dbA 0 (.response 304 "") "sub1" "payment_intent.confirmed"
        "payload").2.success = false ∧
    (304 : Nat) < 400 := by
  exact ⟨rfl, by decide⟩

/-- C5 (amended): once the subscription guards pass, an HTTP response is
classified as success exactly when its status is in [200, 300) (the axios
default `validateStatus`); a response outside that range is a failure that
captures the status code, and a network-level error is a failure with no
status code whose error message is captured. -/
theorem dispatcher_outcome_classification :
    (∀ (db : DB) (now s : Nat) (b wid et data : String) (w : WebhookSubscription),
      findSub db wid = some w → w.isActive = true → w.events.contains et = true →
      (sendWebhook db now (.response s b) wid et data).2.success
        = (decide (200 ≤ s) && decide (s < 300))) ∧
    (∀ (db : DB) (now s : Nat) (b wid et data : String) (w : WebhookSubscription),
      findSub db wid = some w → w.isActive = true → w.events.contains et = true →
      (sendWebhook db now (.response s b) wid et data).2.statusCode = some s) ∧
    (∀ (db : DB) (now : Nat) (m wid et data : String) (w : WebhookSubscription),
      findSub db wid = some w → w.isActive = true → w.events.contains et = true →
      (sendWebhook db now (.netError m) wid et data).2
        = ⟨false, none, none, some m⟩) := by
  refine ⟨?_, ?_, ?_⟩
  · intro db now s b wid et data w hw ha he
    exact sendWebhook_success_eq hw ha he
  · intro db now s b wid et data w hw ha he
    unfold sendWebhook
    simp only [hw]
    rw [if_neg (show ¬ (w.isActive = false) by simp [ha])]
    rw [if_neg (show ¬ (w.events.contains et = false) by rw [he]; simp)]
    by_cases hr : axiosResolves (.response s b) = true
    · rw [if_pos hr]
      rfl
    · rw [if_neg hr]
      rfl
  · intro db now m wid et data w hw ha he
    unfold sendWebhook
    simp only [hw]
    rw [if_neg (show ¬ (w.isActive = false) by simp [ha])]
    rw [if_neg (show ¬ (w.events.contains et = false) by rw [he]; simp)]
    rw [if_neg (show ¬ (axiosResolves (.netError m) = true) by simp [axiosResolves])]
    rfl

/-- C5 witness: the three classification cases evaluated concretely — a
500 response is a failure with its status captured, and a timeout is a
failure carrying the error message. -/
theorem dispatcher_outcome_classification_witness :
    ((sendWebhook dbA 0 (.response 500 "err") "sub1" "payment_intent.confirmed"
        "payload").2.success = (decide ((200 : Nat) ≤ 500) && decide ((500 : Nat) < 300))) ∧
    ((sendWebhook dbA 0 (.response 500 "err") "sub1" "payment_intent.confirmed"
        "payload").2.statusCode = some 500) ∧
    ((sendWebhook dbA 0 (.netError "timeout of 10000ms exceeded") "sub1"
        "payment_intent.confirmed" "payload").2
      = ⟨false, none, none, some "timeout of 10000ms exceeded"⟩) :=
  ⟨dispatcher_outcome_classification.1 dbA 0 500 "err" "sub1"
      "payment_intent.confirmed" "payload" subA rfl rfl rfl,
   dispatcher_outcome_classification.2.1 dbA 0 500 "err" "sub1"
      "payment_intent.confirmed" "payload" subA rfl rfl rfl,
   dispatcher_outcome_classification.2.2 dbA 0 "timeout of 10000ms exceeded" "sub1"
      "payment_intent.confirmed" "payload" subA rfl rfl rfl⟩

/-- C8 counterexample: a failed attempt at time 100 increments the failure
counter but leaves the last-triggered timestamp at its previous value 7 —
it is not set to the attempt time, contradicting "last-triggered set on
every attempt". -/
theorem failure_attempt_lastTriggered_unchanged_cex :
    (findSub (sendWebhook dbA 100 (.response 500 "") "sub1"
        "payment_intent.confirmed" "payload").1 "sub1").map
      (fun s => (s.failureCount, s.lastTriggered)) = some (1, some 7) := by
  rfl

/-- C8 (amended): for every attempt that reaches the network call, on
success the failure counter is reset to 0 and last-triggered is set to the
attempt time; on failure the failure counter is incremented by 1 and
last-triggered is left unchanged (it is set only on success). -/
theorem delivery_outcome_subscription_update :
    (∀ (db : DB) (now : Nat) (o : HttpOutcome) (wid et data : String)
        (w : WebhookSubscription),
      findSub db wid = some w → w.isActive = true → w.events.contains et = true →
      axiosResolves o = true →
      findSub (sendWebhook db now o wid et data).1 wid
        = some { w with lastTriggered := some now, failureCount := 0 }) ∧
    (∀ (db : DB) (now : Nat) (o : HttpOutcome) (wid et data : String)
        (w : WebhookSubscription),
      findSub db wid = some w → w.isActive = true → w.events.contains et = true →
      axiosResolves o = false →
      findSub (sendWebhook db now o wid et data).1 wid
        = some { w with failureCount := w.failureCount + 1 }) := by
  constructor
  · intro db now o wid et data w hw ha he hr
    rw [findSub_sendWebhook hw ha he, if_pos hr]
  · intro db now o wid et data w hw ha he hr
    rw [findSub_sendWebhook hw ha he,
      if_neg (show ¬ (axiosResolves o = true) by simp [hr])]

/-- C8 witness: both outcome cases evaluated on the concrete subscription. -/
theorem delivery_outcome_subscription_update_witness :
    (findSub (sendWebhook dbA 100 (.response 200 "ok") "sub1"
        "payment_intent.confirmed" "payload").1 "sub1"
      = some { subA with lastTriggered := some 100, failureCount := 0 }) ∧
    (findSub (sendWebhook dbA 100 (.response 500 "") "sub1"
        "payment_intent.confirmed" "payload").1 "sub1"
      = some { subA with failureCount := subA.failureCount + 1 }) :=
  ⟨delivery_outcome_subscription_update.1 dbA 100 (.response 200 "ok") "sub1"
      "payment_intent.confirmed" "payload" subA rfl rfl rfl rfl,
   delivery_outcome_subscription_update.2 dbA 100 (.response 500 "") "sub1"
      "payment_intent.confirmed" "payload" subA rfl rfl rfl rfl⟩

/-- C4 counterexample: a due record delivered successfully by the retry
sweep gets status `delivered` and a delivered-at time, but its next-retry
timestamp is not cleared in that transition — it keeps its old value. -/
theorem delivered_keeps_nextRetryAt_cex :
    (getDelivery (retryStep dbB 100 (.response 200 "ok") dlvA) 0).map
      (fun r => (r.status, r.nextRetryAt, r.deliveredAt))
      = some ("delivered", some 0, some 100) := by
  rfl

/-- C4 (amended): of the three terminal transitions, only the
attempt-ceiling one clears the next-retry timestamp; the delivered-on-retry
and inactive-subscription transitions change status (and delivered-at) but
leave the next-retry timestamp untouched.  A record with status `delivered`
is still never due for the sweep, which selects only status `failed`. -/
theorem terminal_transition_fields :
    (∀ (db : DB) (now : Nat) (o : HttpOutcome) (d : WebhookDelivery)
        (w : WebhookSubscription),
      findSub db d.webhookSubscriptionId = some w → w.isActive = true →
      w.events.contains d.eventType = true → getDelivery db d.id = some d →
      axiosResolves o = false → 3 ≤ d.attempts + 1 →
      getDelivery (retryStep db now o d) d.id
        = some { d with attempts := d.attempts + 1, nextRetryAt := none,
                        status := "failed" }) ∧
    (∀ (db : DB) (now : Nat) (o : HttpOutcome) (d : WebhookDelivery)
        (w : WebhookSubscription),
      findSub db d.webhookSubscriptionId = some w → w.isActive = true →
      w.events.contains d.eventType = true → getDelivery db d.id = some d →
      axiosResolves o = true →
      getDelivery (retryStep db now o d) d.id
        = some { d with status := "delivered", deliveredAt := some now }) ∧
    (∀ (db : DB) (now : Nat) (o : HttpOutcome) (d : WebhookDelivery)
        (w : WebhookSubscription),
      findSub db d.webhookSubscriptionId = some w → w.isActive = false →
      getDelivery db d.id = some d →
      getDelivery (retryStep db now o d) d.id = some { d with status := "failed" }) ∧
    (∀ (now : Nat) (r : WebhookDelivery),
      r.status = "delivered" → isDue now r = false) := by
  refine ⟨?_, ?_, ?_, ?_⟩
  · intro db now o d w hw ha he hd hr h3
    unfold retryStep
    simp only [hw]
    rw [if_neg (show ¬ (w.isActive = false) by simp [ha])]
    rw [if_neg (show
      ¬ ((sendWebhook db now o d.webhookSubscriptionId d.eventType d.eventData).2.success = true)
      by rw [sendWebhook_success_eq hw ha he, hr]; simp)]
    rw [getDelivery_update
      (fun r => { r with
        attempts := d.attempts + 1
        nextRetryAt := if d.attempts + 1 < 3 then some (now + 2 ^ (d.attempts + 1) * 60000) else none
        status := if 3 ≤ d.attempts + 1 then "failed" else "pending" })
      (fun r => rfl) (getDelivery_sendWebhook hw ha he hd)]
    congr 2
    · rw [if_pos h3]
    · rw [if_neg (show ¬ (d.attempts + 1 < 3) by omega)]
  · intro db now o d w hw ha he hd hr
    unfold retryStep
    simp only [hw]
    rw [if_neg (show ¬ (w.isActive = false) by simp [ha])]
    rw [if_pos (show
      (sendWebhook db now o d.webhookSubscriptionId d.eventType d.eventData).2.success = true
      by rw [sendWebhook_success_eq hw ha he, hr])]
    exact getDelivery_update
      (fun r => { r with status := "delivered", deliveredAt := some now })
      (fun r => rfl) (getDelivery_sendWebhook hw ha he hd)
  · intro db now o d w hw hi hd
    unfold retryStep
    simp only [hw]
    rw [if_pos hi]
    exact getDelivery_update (fun r => { r with status := "failed" })
      (fun r => rfl) hd
  · intro now r h
    simp [isDue, h]

/-- C4 witness: the four parts evaluated concretely — ceiling reached by a
timeout on the twice-failed record, retry success on the once-failed
record, an inactive owner, and a delivered record tested against the due
condition. -/
theorem terminal_transition_fields_witness :
    (getDelivery (retryStep dbC 1000 (.netError "timeout") dlvB) 0
      = some { dlvB with attempts := 3, nextRetryAt := none, status := "failed" }) ∧
    (getDelivery (retryStep dbB 100 (.response 200 "ok") dlvA) 0
      = some { dlvA with status := "delivered", deliveredAt := some 100 }) ∧
    (getDelivery (retryStep dbI 50 (.response 200 "ok") dlvA) 0
      = some { dlvA with status := "failed" }) ∧
    (isDue 0 { dlvA with status := "delivered" } = false) :=
  ⟨terminal_transition_fields.1 dbC 1000 (.netError "timeout") dlvB subA
      rfl rfl rfl rfl rfl (by decide),
   terminal_transition_fields.2.1 dbB 100 (.response 200 "ok") dlvA subA
      rfl rfl rfl rfl rfl,
   terminal_transition_fields.2.2.1 dbI 50 (.response 200 "ok") dlvA subI
      rfl rfl rfl,
   terminal_transition_fields.2.2.2 0 { dlvA with status := "delivered" } rfl⟩

namespace Crypto

/-- One SHA-256 round leaves the working-state length unchanged. -/
theorem roundStep_length (st : List Nat) (kw : Nat × Nat) :
    (roundStep st kw).length = st.length := by
  rcases st with _ | ⟨a, _ | ⟨b, _ | ⟨c, _ | ⟨d, _ | ⟨e, _ | ⟨f, _ | ⟨g, _ | ⟨h,
    _ | ⟨x, t⟩⟩⟩⟩⟩⟩⟩⟩⟩ <;> rfl

/-- Folding rounds leaves the working-state length unchanged. -/
theorem foldl_roundStep_length (l : List (Nat × Nat)) (st : List Nat) :
    (l.foldl roundStep st).length = st.length := by
  induction l generalizing st with
  | nil => rfl
  | cons a t ih => rw [List.foldl_cons, ih, roundStep_length]

/-- Compression preserves the 8-word hash state. -/
theorem sha256Compress_length (h block : List Nat) (hh : h.length = 8) :
    (sha256Compress h block).length = 8 := by
  unfold sha256Compress
  rw [List.length_map, List.length_zip, foldl_roundStep_length, hh]
  simp

/-- The block loop preserves the 8-word hash state. -/
theorem sha256Loop_length (fuel : Nat) (h msg : List Nat) (hh : h.length = 8) :
    (sha256Loop fuel h msg).length = 8 := by
  induction fuel generalizing h msg with
  | zero => exact hh
  | succ n ih =>
    cases msg with
    | nil => exact hh
    | cons a t =>
      exact ih (sha256Compress h ((a :: t).take 64)) ((a :: t).drop 64)
        (sha256Compress_length _ _ hh)

/-- Big-endian decomposition yields exactly `k` bytes. -/
theorem beBytes_length (k n : Nat) : (beBytes k n).length = k := by
  unfold beBytes
  rw [List.length_map, List.length_range]

/-- Serialising a word list to bytes quadruples the length. -/
theorem flatten_beBytes_length (l : List Nat) :
    ((l.map (beBytes 4)).flatten).length = 4 * l.length := by
  induction l with
  | nil => rfl
  | cons a t ih =>
    rw [List.map_cons, List.flatten_cons, List.length_append, beBytes_length,
      ih, List.length_cons]
    omega

/-- SHA-256 digests are 32 bytes long. -/
theorem sha256Bytes_length (m : List Nat) : (sha256Bytes m).length = 32 := by
  show (((sha256Loop (sha256Pad m).length initH (sha256Pad m)).map
    (beBytes 4)).flatten).length = 32
  rw [flatten_beBytes_length, sha256Loop_length _ _ _ (by rfl)]

/-- HMAC-SHA256 digests are 32 bytes long. -/
theorem hmacSha256_length (k m : List Nat) : (hmacSha256 k m).length = 32 :=
  sha256Bytes_length _

/-- Every byte of a big-endian decomposition is below 256. -/
theorem beBytes_lt (k n : Nat) : ∀ b ∈ beBytes k n, b < 256 := by
  intro b hb
  unfold beBytes at hb
  rcases List.mem_map.mp hb with ⟨i, _, rfl⟩
  exact Nat.mod_lt _ (by decide)

/-- Every element of a SHA-256 digest is a byte. -/
theorem sha256Bytes_lt (m : List Nat) : ∀ b ∈ sha256Bytes m, b < 256 := by
  intro b hb
  have hb2 : b ∈ ((sha256Loop (sha256Pad m).length initH (sha256Pad m)).map
      (beBytes 4)).flatten := hb
  rcases List.mem_flatten.mp hb2 with ⟨l, hl, hbl⟩
  rcases List.mem_map.mp hl with ⟨v, _, rfl⟩
  exact beBytes_lt 4 v b hbl

/-- The hex digit of a value below 16 is a lowercase hex digit. -/
theorem hexDigitChar_mem (n : Nat) (h : n < 16) :
    lowercaseHexDigits.contains (hexDigitChar n) = true := by
  interval_cases n <;> decide

/-- Hex rendering doubles the length. -/
theorem hexChars_length (bs : List Nat) : (hexChars bs).length = 2 * bs.length := by
  induction bs with
  | nil => rfl
  | cons a t ih =>
    simp only [hexChars, List.flatMap_cons, List.length_append, List.length_cons,
      List.length_nil] at ih ⊢
    omega

/-- Hex rendering of a byte list produces only lowercase hex digits. -/
theorem hexChars_all (bs : List Nat) (h : ∀ b ∈ bs, b < 256) :
    (hexChars bs).all (fun c => lowercaseHexDigits.contains c) = true := by
  induction bs with
  | nil => rfl
  | cons a t ih =>
    have ha : a < 256 := h a (List.mem_cons_self a t)
    simp only [hexChars, List.flatMap_cons, List.all_append] at ih ⊢
    have h1 : lowercaseHexDigits.contains (hexDigitChar (a / 16)) = true :=
      hexDigitChar_mem _ (by omega)
    have h2 : lowercaseHexDigits.contains (hexDigitChar (a % 16)) = true :=
      hexDigitChar_mem _ (by omega)
    have h3 : (t.flatMap (fun b => [hexDigitChar (b / 16), hexDigitChar (b % 16)])).all
        (fun c => lowercaseHexDigits.contains c) = true :=
      ih (fun b hb => h b (List.mem_cons_of_mem a hb))
    simp only [List.all_cons, h1, h2, Bool.and_true, Bool.true_and]
    exact h3

/-- Extending a sub-block-size key with a NUL byte does not change the
padded HMAC key. -/
theorem hmacPaddedKey_nul (k : List Nat) (hk : k.length < 64) :
    hmacPaddedKey (k ++ [0]) = hmacPaddedKey k := by
  have hlen : (k ++ [0]).length = k.length + 1 := by
    rw [List.length_append, List.length_cons, List.length_nil]
  have hA : ¬ (64 < (k ++ [0]).length) := by omega
  have hB : ¬ (64 < k.length) := by omega
  unfold hmacPaddedKey hmacKey
  rw [if_neg hA, if_neg hB]
  rw [List.append_assoc]
  congr 1
  have h1 : 64 - k.length = (64 - (k ++ [0]).length) + 1 := by omega
  rw [h1, List.replicate_succ]
  rfl

/-- The HMAC key-padding collision: for a key below the block size,
appending a NUL byte yields the same MAC on every message. -/
theorem hmac_nul_ext (k msg : List Nat) (hk : k.length < 64) :
    hmacSha256 (k ++ [0]) msg = hmacSha256 k msg := by
  unfold hmacSha256
  rw [hmacPaddedKey_nul k hk]

end Crypto

/-- A 16-character secret accepted by the subscription API. -/
def secretA : String := "0123456789abcdef"

/-- The same secret extended by one NUL character — a different, equally
valid string. -/
def secretB : String := "0123456789abcdef\x00"

/-- A concrete webhook event. -/
def eventA : WebhookEvent :=
  { id := "evt_1", type := "payment_intent.confirmed", data := .str "pi_1",
    created := 1733347560 }

/-- C6 counterexample: two distinct secrets produce the identical
signature for the same event, because HMAC zero-pads secrets shorter than
its 64-byte block — changing the secret does not always change the
signature. -/
theorem signature_nul_secret_collision_cex :
    (secretA == secretB) = false ∧
    generateSignature eventA secretA = generateSignature eventA secretB := by
  constructor
  · rfl
  · unfold generateSignature
    rw [show Crypto.utf8Bytes secretB = Crypto.utf8Bytes secretA ++ [0] from rfl]
    rw [Crypto.hmac_nul_ext _ _ (by decide)]

set_option maxHeartbeats 1000000 in
/-- C6 (amended): signing is deterministic and pure — identical
(event, secret) pairs give the identical signature, namely the lowercase
hex HMAC-SHA256 of the serialized event keyed by the secret — and every
signature is exactly 64 lowercase hexadecimal characters. -/
theorem signature_deterministic_hex_shape :
    (∀ (e : WebhookEvent) (s : String),
      generateSignature e s = generateSignature e s) ∧
    (∀ (e : WebhookEvent) (s : String),
      (generateSignature e s).length = 64) ∧
    (∀ (e : WebhookEvent) (s : String),
      ((generateSignature e s).data.all
        (fun c => Crypto.lowercaseHexDigits.contains c)) = true) := by
  refine ⟨fun e s => rfl, fun e s => ?_, fun e s => ?_⟩
  · show (Crypto.hexChars (Crypto.hmacSha256 (Crypto.utf8Bytes s)
      (Crypto.utf8Bytes (Json.stringify (eventJson e))))).length = 64
    rw [Crypto.hexChars_length, Crypto.hmacSha256_length]
  · show (Crypto.hexChars (Crypto.hmacSha256 (Crypto.utf8Bytes s)
      (Crypto.utf8Bytes (Json.stringify (eventJson e))))).all
        (fun c => Crypto.lowercaseHexDigits.contains c) = true
    exact Crypto.hexChars_all _ (Crypto.sha256Bytes_lt _)

/-- C9: none of the read responses of the webhook subscription API carry
the secret: the create handler's rest-destructuring drops exactly the
`secret` property, the list/get/update handlers select a fixed column set
that excludes it, and the regenerate-secret handler returns only a
message. -/
theorem read_responses_omit_secret :
    (∀ w : WebhookRoute.SubscriptionRow,
      ((WebhookRoute.createResponseData w).map Prod.fst).contains "secret" = false) ∧
    (∀ w : WebhookRoute.SubscriptionRow,
      (WebhookRoute.selectedFields w).map Prod.fst
        = ["id", "url", "events", "isActive", "createdAt", "lastTriggered",
           "failureCount"]) ∧
    (∀ w : WebhookRoute.SubscriptionRow,
      ((WebhookRoute.selectedFields w).map Prod.fst).contains "secret" = false) ∧
    (WebhookRoute.objKeys WebhookRoute.regenerateResponse).contains "secret" = false := by
  exact ⟨fun w => rfl, fun w => rfl, fun w => rfl, rfl⟩
